import Mathlib

/-!
Shallow embedding of the unified-player repository (senza dual-playback
coordinator). The repository wires a local playback engine (a media element
driven by a DASH player) and a remote playback proxy behind one facade and
arbitrates which side is authoritative from the app lifecycle state.

The embedding models the coordinator variants found in the sources:
- `UnifiedPlayer` (src/unifiedPlayer.js): composition over an EventTarget,
  stores `isInRemotePlayback` as a boolean updated by the lifecycle handler.
- `SenzaShakaPlayer` (src/senzaShakaPlayer.js, first variant): subclass of the
  player, derives `isInRemotePlayback` from the lifecycle signal's state.
- `SenzaShakaPlayerV2` (src/senzaShakaPlayer.js, second variant): the variant
  whose `moveToRemotePlayback` syncs the remote time before backgrounding.
- `ShakaPlayer` (src/shakaPlayer.js): the variant whose `load` skips the
  remote attempt when already in remote playback with the same asset.

External collaborators (media element, remote proxy, lifecycle signal, fetch,
base64 decoding) are modelled as explicit state fields, environment functions
and result parameters; every observable call the coordinator makes to them is
recorded as an `Act` in a trace.
-/

/-- The lifecycle signal's UiState enumeration (senza-sdk `lifecycle.state`). -/
inductive UiState
| background
| inTransitionToBackground
| foreground
| inTransitionToForeground
deriving DecidableEq, Repr

/-- The body argument of `writeLicenseResponse`: the raw array-buffer data on
success, a string on the stringified error path, or JS `undefined`. -/
inductive RespBody
| raw (data : Option (List Nat))
| text (s : String)
| undef
deriving DecidableEq, Repr

/-- An HTTP-style request record as built by `getLicenseFromServer` and by the
`license-request` listener of src/shakaPlayer.js. -/
structure DrmRequest where
  uris : List String
  method : String
  body : List Nat
  headers : List (String × String)
deriving DecidableEq, Repr

/-- The response the environment returns for a license request: the HTTP
status and the bytes of `response.arrayBuffer()` (`none` models a null-ish
`data` field, reachable only through a response filter). -/
structure FetchResponse where
  status : Nat
  data : Option (List Nat)
deriving DecidableEq, Repr

/-- One observable call the coordinator makes into an external collaborator.
`dispatchEvent` carries only the event type string, mirroring
`new Event("...")` which has no payload beyond its type. -/
inductive Act
| localLoad (url : String)
| remoteLoad (url : String)
| localPause
| remotePause
| localPlay
| remotePlay
| setLocalTime (t : ℚ)
| setRemoteTime (t : ℚ)
| moveToBackground
| moveToForeground
| consoleLog (msg : String)
| consoleWarn (msg : String)
| consoleError (msg : String)
| dispatchEvent (eventType : String)
| httpPost (uri : String) (method : String) (headers : List (String × String)) (body : List Nat)
| engineLicenseRequest (request : DrmRequest)
| writeLicenseResponse (status : Nat) (body : RespBody)
deriving DecidableEq, Repr

/-- State of the `UnifiedPlayer` variant: the two engines' positions, the
media element's paused flag, and the stored `isInRemotePlayback` boolean. -/
structure PlayerState where
  localTime : ℚ
  remoteTime : ℚ
  localPaused : Bool
  isInRemotePlayback : Bool
deriving DecidableEq, Repr

/-- State of the `SenzaShakaPlayer` variants: `isInRemotePlayback` is not
stored but derived from the lifecycle signal's current state. -/
structure SenzaState where
  lifecycleState : UiState
  localTime : ℚ
  remoteTime : ℚ
  localPaused : Bool
deriving DecidableEq, Repr

/-- Outcomes the environment assigns to the two engines' `load(url)` calls. -/
structure LoadEnv where
  localLoadResult : Except String Unit
  remoteLoadResult : Except String Unit
deriving Repr

/-- Sequencing of two awaited effectful steps: the second runs only when the
first did not throw; traces accumulate. -/
def Eff.andThen {α β : Type} (x : List Act × Except String α)
    (f : α → List Act × Except String β) : List Act × Except String β :=
  match x with
  | (tr, Except.error e) => (tr, Except.error e)
  | (tr, Except.ok a) =>
    let y := f a
    (tr ++ y.1, y.2)

/-- A JS `try { ... } catch (e) { ... }` block around an effectful step. -/
def Eff.tryCatch {α : Type} (x : List Act × Except String α)
    (handler : String → List Act × Except String α) : List Act × Except String α :=
  match x with
  | (tr, Except.error e) =>
    let y := handler e
    (tr ++ y.1, y.2)
  | (tr, Except.ok a) => (tr, Except.ok a)

/-- `await this.localPlayer.load(url)` (resp. `super.load(url)`): records the
attempt and takes its outcome from the environment. -/
def localPlayerLoad (env : LoadEnv) (url : String) : List Act × Except String Unit :=
  ([Act.localLoad url], env.localLoadResult)

/-- `await remotePlayer.load(url)`: records the attempt and takes its outcome
from the environment. -/
def remotePlayerLoad (env : LoadEnv) (url : String) : List Act × Except String Unit :=
  ([Act.remoteLoad url], env.remoteLoadResult)

/-- `console.log(msg)` as an effectful step that never throws. -/
def consoleLogE (msg : String) : List Act × Except String Unit :=
  ([Act.consoleLog msg], Except.ok ())

/-- JS `String.fromCharCode.apply(null, bytes)`. -/
def stringFromCharCodes (codes : List Nat) : String :=
  String.mk (codes.map (fun c => Char.ofNat c))

/-- JS `(l) => l.charCodeAt(0)` mapped over a string's characters, as in
`Uint8Array.from(decoded, (l) => l.charCodeAt(0))`. -/
def charCodesOf (s : String) : List Nat :=
  s.data.map (fun c => c.toNat)

/-- JS `String.fromCharCode(new Uint8Array(data))` as written (without
`apply`): the array is coerced to one number - its single element for a
one-element array, NaN (hence char code 0 after ToUint16) otherwise. -/
def jsStringFromCharCodeArray (data : List Nat) : String :=
  match data with
  | [c] => String.mk [Char.ofNat (c % 65536)]
  | _ => String.mk [Char.ofNat 0]

namespace UnifiedPlayer

/-- The constructor (src/unifiedPlayer.js line 54) stores
`this.isInRemotePlayback = false`. -/
def initState (localTime remoteTime : ℚ) (localPaused : Bool) : PlayerState :=
  { localTime := localTime, remoteTime := remoteTime,
    localPaused := localPaused, isInRemotePlayback := false }

/-- The lifecycle `onstatechange` listener (src/unifiedPlayer.js lines
95-108). In the source the `case "background"` arm has no break and falls
through to `case "inTransitionToBackground"`, so both set
`isInRemotePlayback = true` and only `background` also pauses the local
player. -/
def onLifecycleStateChange (s : PlayerState) (state : UiState) : PlayerState × List Act :=
  match state with
  | UiState.background =>
    ({ s with localPaused := true, isInRemotePlayback := true }, [Act.localPause])
  | UiState.inTransitionToBackground =>
    ({ s with isInRemotePlayback := true }, [])
  | UiState.foreground =>
    ({ s with isInRemotePlayback := false }, [])
  | UiState.inTransitionToForeground =>
    ({ s with isInRemotePlayback := false }, [])

/-- Deliver a sequence of lifecycle state-change events to the listener. -/
def runLifecycle (s : PlayerState) (events : List UiState) : PlayerState :=
  events.foldl (fun st ev => (onLifecycleStateChange st ev).1) s

/-- `get paused()` (src/unifiedPlayer.js lines 117-119). -/
def paused (s : PlayerState) : Bool :=
  if s.isInRemotePlayback then false else s.localPaused

/-- `get currentTime()` (src/unifiedPlayer.js lines 126-128). -/
def currentTimeGet (s : PlayerState) : ℚ :=
  if s.isInRemotePlayback then s.remoteTime else s.localTime

/-- `set currentTime(time)` (src/unifiedPlayer.js lines 135-141):
`remotePlayer.currentTime = this.videoElement.currentTime = time` assigns the
local element first, then the remote proxy. -/
def currentTimeSet (s : PlayerState) (time : ℚ) : PlayerState × List Act :=
  if s.isInRemotePlayback then
    (s, [Act.consoleWarn "Setting currentTime while in remote playback is not supported yet."])
  else
    ({ s with localTime := time, remoteTime := time },
     [Act.setLocalTime time, Act.setRemoteTime time])

/-- `pause()` (src/unifiedPlayer.js lines 183-190). -/
def pause (s : PlayerState) : PlayerState × List Act :=
  if s.isInRemotePlayback then
    (s, [Act.consoleWarn "Pausing while in remote playback is not supported yet."])
  else
    ({ s with localPaused := true }, [Act.localPause, Act.remotePause])

/-- The video element's `timeupdate` listener (src/unifiedPlayer.js lines
86-93): while not in remote playback it mirrors the local position into the
remote proxy and re-dispatches a plain `timeupdate` event. -/
def onLocalTimeupdate (s : PlayerState) : PlayerState × List Act :=
  if s.isInRemotePlayback then (s, [])
  else
    ({ s with remoteTime := s.localTime },
     [Act.consoleLog "localPlayer timeupdate",
      Act.setRemoteTime s.localTime,
      Act.dispatchEvent "timeupdate"])

/-- The remote player's `timeupdate` listener (src/unifiedPlayer.js lines
67-74): while in remote playback it mirrors the remote position into the
local element and re-dispatches a plain `timeupdate` event. -/
def onRemoteTimeupdate (s : PlayerState) : PlayerState × List Act :=
  if !s.isInRemotePlayback then (s, [])
  else
    ({ s with localTime := s.remoteTime },
     [Act.consoleLog "remotePlayer timeupdate",
      Act.setLocalTime s.remoteTime,
      Act.dispatchEvent "timeupdate"])

/-- The remote player's `ended` listener (src/unifiedPlayer.js lines 56-60). -/
def onRemoteEnded : List Act :=
  [Act.consoleLog "remotePlayer ended",
   Act.moveToForeground,
   Act.dispatchEvent "ended"]

/-- `load(url)` (src/unifiedPlayer.js lines 159-166): one try block awaits the
local load then the remote load; one catch logs a combined message. -/
def load (env : LoadEnv) (url : String) : List Act × Except String Unit :=
  Eff.tryCatch
    (Eff.andThen (localPlayerLoad env url) (fun _ => remotePlayerLoad env url))
    (fun _ => consoleLogE "Couldn\'t load.")

/-- `moveToRemotePlayback()` (src/unifiedPlayer.js lines 205-207): only
`lifecycle.moveToBackground()`, no position sync. -/
def moveToRemotePlayback (s : PlayerState) : PlayerState × List Act :=
  (s, [Act.moveToBackground])

end UnifiedPlayer

namespace SenzaShakaPlayer

/-- `get isInRemotePlayback()` (src/senzaShakaPlayer.js lines 91-93): derived
from the lifecycle signal's current state. -/
def isInRemotePlayback (state : UiState) : Bool :=
  (state == UiState.background) || (state == UiState.inTransitionToBackground)

/-- `get paused()` (src/senzaShakaPlayer.js lines 118-120). -/
def paused (s : SenzaState) : Bool :=
  if isInRemotePlayback s.lifecycleState then false else s.localPaused

/-- `get currentTime()` (src/senzaShakaPlayer.js lines 127-129). -/
def currentTimeGet (s : SenzaState) : ℚ :=
  if isInRemotePlayback s.lifecycleState then s.remoteTime else s.localTime

/-- `set currentTime(time)` (src/senzaShakaPlayer.js lines 136-142). -/
def currentTimeSet (s : SenzaState) (time : ℚ) : SenzaState × List Act :=
  if isInRemotePlayback s.lifecycleState then
    (s, [Act.consoleWarn "Setting currentTime while in remote playback is not supported yet."])
  else
    ({ s with localTime := time, remoteTime := time },
     [Act.setLocalTime time, Act.setRemoteTime time])

/-- `pause()` (src/senzaShakaPlayer.js lines 218-225). -/
def pause (s : SenzaState) : SenzaState × List Act :=
  if isInRemotePlayback s.lifecycleState then
    (s, [Act.consoleWarn "Pausing while in remote playback is not supported yet."])
  else
    ({ s with localPaused := true }, [Act.localPause, Act.remotePause])

/-- The remote player's `ended` listener (src/senzaShakaPlayer.js lines
60-64). -/
def onRemoteEnded : List Act :=
  [Act.consoleLog "remotePlayer ended",
   Act.moveToForeground,
   Act.dispatchEvent "ended"]

/-- `load(url)` (src/senzaShakaPlayer.js lines 160-171): the remote load and
the local load each sit in their own try block with their own logged catch. -/
def load (env : LoadEnv) (url : String) : List Act × Except String Unit :=
  Eff.andThen
    (Eff.tryCatch (remotePlayerLoad env url)
      (fun e => consoleLogE ("Couldn\'t load remote player. Error: " ++ e)))
    (fun _ =>
      Eff.tryCatch (localPlayerLoad env url)
        (fun e => consoleLogE ("Couldn\'t load local player. Error: " ++ e)))

end SenzaShakaPlayer

namespace SenzaShakaPlayerV2

/-- `moveToRemotePlayback()` of the second variant in src/senzaShakaPlayer.js
(lines 437-440): copies the local position into the remote proxy, then
requests the background transition. -/
def moveToRemotePlayback (s : SenzaState) : SenzaState × List Act :=
  ({ s with remoteTime := s.localTime },
   [Act.setRemoteTime s.localTime, Act.moveToBackground])

end SenzaShakaPlayerV2

namespace ShakaPlayer

/-- `load(url)` (src/shakaPlayer.js lines 182-195): the remote attempt is
guarded by `!this.isInRemotePlayback || remotePlayer.getAssetUri() !== url`;
each attempt has its own try block with its own logged catch. -/
def load (isInRemotePlayback : Bool) (assetUri : String) (env : LoadEnv) (url : String) :
    List Act × Except String Unit :=
  Eff.andThen
    (if !isInRemotePlayback || assetUri != url then
      Eff.tryCatch (remotePlayerLoad env url)
        (fun e => consoleLogE ("Couldn\'t load remote player. Error: " ++ e))
    else ([], Except.ok ()))
    (fun _ =>
      Eff.tryCatch (localPlayerLoad env url)
        (fun e => consoleLogE ("Couldn\'t load local player. Error: " ++ e)))

end ShakaPlayer

/-- The result record `{ code, responseBody }` of `getLicenseFromServer`. -/
structure LicenseResult where
  code : Nat
  responseBody : RespBody
deriving DecidableEq, Repr

/-- `getLicenseFromServer` (src/senzaShakaPlayer.js lines 303-341): builds a
POST request with the `Content-Type: application/octet-stream` header, runs
the optional request filter, performs the fetch (recorded as an `httpPost`
act on the possibly filtered request), runs the optional response filter, and
returns the status with the raw data on 200 or with the stringified-or-
undefined data (after logging an error) otherwise. -/
def getLicenseFromServer (drmServer : String) (licenseRequest : List Nat)
    (drmRequestFilter : Option (DrmRequest → DrmRequest))
    (drmResponseFilter : Option (FetchResponse → FetchResponse))
    (fetch : DrmRequest → FetchResponse) : List Act × LicenseResult :=
  let request : DrmRequest :=
    { uris := [drmServer], method := "POST", body := licenseRequest,
      headers := [("Content-Type", "application/octet-stream")] }
  let request :=
    match drmRequestFilter with
    | some f => f request
    | none => request
  let response := fetch request
  let response :=
    match drmResponseFilter with
    | some f => f response
    | none => response
  let post := Act.httpPost (request.uris.headD "") request.method request.headers request.body
  let code := response.status
  if code ≠ 200 then
    let responseBody : RespBody :=
      match response.data with
      | some d => RespBody.text (jsStringFromCharCodeArray d)
      | none => RespBody.undef
    ([post, Act.consoleError "failed to to get response from widevine"],
     { code := code, responseBody := responseBody })
  else
    ([post], { code := code, responseBody := RespBody.raw response.data })

namespace SenzaShakaPlayer

/-- The `license-request` listener installed by `configureDrm`
(src/senzaShakaPlayer.js lines 284-299): decodes the base64 payload (bytes to
string, `window.atob`, string back to bytes), calls `getLicenseFromServer`,
and writes the resulting status and body back to the remote player. `atob` is
the browser's base64 decoder, an external collaborator. -/
def onLicenseRequest (server : String)
    (requestFilter : Option (DrmRequest → DrmRequest))
    (responseFilter : Option (FetchResponse → FetchResponse))
    (atob : String → String)
    (fetch : DrmRequest → FetchResponse)
    (licenseRequestPayload : List Nat) : List Act :=
  let requestBufferStr := stringFromCharCodes licenseRequestPayload
  let decodedLicenseRequest := atob requestBufferStr
  let licenseRequestBytes := charCodesOf decodedLicenseRequest
  let res := getLicenseFromServer server licenseRequestBytes requestFilter responseFilter fetch
  res.1 ++ [Act.writeLicenseResponse res.2.code res.2.responseBody]

end SenzaShakaPlayer

namespace ShakaPlayer

/-- The `license-request` listener of src/shakaPlayer.js (lines 60-86):
decodes the base64 payload, sends one LICENSE request through the local
networking engine (`engineRequest`, an external collaborator that performs
the HTTP exchange), and writes the resulting status and body back. On a
non-200 status the body is `response.data ?? String.fromCharCode(new
Uint8Array(response.data))`: kept raw when data is present, the coerced
string otherwise. -/
def onLicenseRequest (configuredServer : String)
    (atob : String → String)
    (engineRequest : DrmRequest → FetchResponse)
    (licenseRequestPayload : List Nat) : List Act :=
  let requestBufferStr := stringFromCharCodes licenseRequestPayload
  let decodedLicenseRequest := atob requestBufferStr
  let licenseRequestBytes := charCodesOf decodedLicenseRequest
  let request : DrmRequest :=
    { uris := [configuredServer], method := "POST", body := licenseRequestBytes, headers := [] }
  let response := engineRequest request
  let responseBody : RespBody :=
    if response.status ≠ 200 then
      match response.data with
      | some d => RespBody.raw (some d)
      | none => RespBody.text (jsStringFromCharCodeArray [])
    else RespBody.raw response.data
  let errorLog : List Act :=
    if response.status ≠ 200 then [Act.consoleError "failed to to get response from widevine"]
    else []
  [Act.engineLicenseRequest request] ++ errorLog
    ++ [Act.writeLicenseResponse response.status responseBody]

end ShakaPlayer

/-- The request the spec expects the license exchange to POST: to the
configured server, method POST, octet-stream content type, body the raw
base64-decoded license payload. -/
def expectedLicensePost (server : String) (atob : String → String)
    (payload : List Nat) : DrmRequest :=
  { uris := [server], method := "POST",
    body := charCodesOf (atob (stringFromCharCodes payload)),
    headers := [("Content-Type", "application/octet-stream")] }

/-- The body `getLicenseFromServer` hands to `writeLicenseResponse` for a
given fetch response: the raw data on 200, the stringified data or undefined
(never dropped) otherwise. -/
def licenseResponseBodyOf (response : FetchResponse) : RespBody :=
  if response.status ≠ 200 then
    match response.data with
    | some d => RespBody.text (jsStringFromCharCodeArray d)
    | none => RespBody.undef
  else RespBody.raw response.data

/-- The body the src/shakaPlayer.js listener hands to `writeLicenseResponse`. -/
def shakaLicenseResponseBodyOf (response : FetchResponse) : RespBody :=
  if response.status ≠ 200 then
    match response.data with
    | some d => RespBody.raw (some d)
    | none => RespBody.text (jsStringFromCharCodeArray [])
  else RespBody.raw response.data

/-- Whether an act is an HTTP POST performed via `fetch`. -/
def isHttpPostAct : Act → Bool
  | Act.httpPost _ _ _ _ => true
  | _ => false

/-- Whether an act is a license request through the local networking engine. -/
def isEngineLicenseRequestAct : Act → Bool
  | Act.engineLicenseRequest _ => true
  | _ => false

/-- Whether an act is a `writeLicenseResponse` call on the remote player. -/
def isWriteLicenseResponseAct : Act → Bool
  | Act.writeLicenseResponse _ _ => true
  | _ => false

/-- Whether an act is a pause call on either engine. -/
def isPauseAct : Act → Bool
  | Act.localPause => true
  | Act.remotePause => true
  | _ => false

/-- Whether an act is a `console.warn`. -/
def isConsoleWarnAct : Act → Bool
  | Act.consoleWarn _ => true
  | _ => false

/-- Whether an act writes either engine's current time. -/
def isTimeWriteAct : Act → Bool
  | Act.setLocalTime _ => true
  | Act.setRemoteTime _ => true
  | _ => false

/-- Whether an act writes the remote engine's current time. -/
def isSetRemoteTimeAct : Act → Bool
  | Act.setRemoteTime _ => true
  | _ => false

/-- Whether an act dispatches a unified event. -/
def isDispatchEventAct : Act → Bool
  | Act.dispatchEvent _ => true
  | _ => false

/-- Whether a lifecycle state is background or inTransitionToBackground. -/
def inBackgroundState : UiState → Bool
  | UiState.background => true
  | UiState.inTransitionToBackground => true
  | UiState.foreground => false
  | UiState.inTransitionToForeground => false

/-- A concrete state in remote playback whose local and remote positions
differ and whose media element is actually paused. -/
def remoteModeState : PlayerState :=
  { localTime := 5, remoteTime := 0, localPaused := true, isInRemotePlayback := true }

/-- A concrete state in local playback with the local engine at 12.5s. -/
def localModeState : PlayerState :=
  { localTime := 25 / 2, remoteTime := 0, localPaused := false, isInRemotePlayback := false }

/-- A concrete `SenzaShakaPlayer` state whose lifecycle signal reports
background. -/
def remoteModeSenzaState : SenzaState :=
  { lifecycleState := UiState.background, localTime := 3, remoteTime := 7, localPaused := true }

/-- A concrete `SenzaShakaPlayer` state whose lifecycle signal reports
foreground. -/
def localModeSenzaState : SenzaState :=
  { lifecycleState := UiState.foreground, localTime := 4, remoteTime := 9, localPaused := false }

/-- The request record the src/shakaPlayer.js listener hands to the local
networking engine: configured server, method POST, raw base64-decoded body,
no explicit headers. -/
def shakaLicenseEngineRequestOf (configuredServer : String) (atob : String → String)
    (payload : List Nat) : DrmRequest :=
  { uris := [configuredServer], method := "POST",
    body := charCodesOf (atob (stringFromCharCodes payload)), headers := [] }

/-- One lifecycle event leaves `isInRemotePlayback` equal to whether the
delivered state is background or inTransitionToBackground. -/
theorem onLifecycleStateChange_isInRemotePlayback (s : PlayerState) (e : UiState) :
    (UnifiedPlayer.onLifecycleStateChange s e).1.isInRemotePlayback = inBackgroundState e := by
  cases e <;> rfl

/-- Folding the lifecycle listener over `l ++ [e]` is folding over `l` and
then delivering `e`. -/
theorem runLifecycle_concat (s : PlayerState) (l : List UiState) (e : UiState) :
    UnifiedPlayer.runLifecycle s (l ++ [e])
      = (UnifiedPlayer.onLifecycleStateChange (UnifiedPlayer.runLifecycle s l) e).1 := by
  simp [UnifiedPlayer.runLifecycle, List.foldl_append]

/-- C1: for every sequence of lifecycle state-change events delivered to the
UnifiedPlayer coordinator, the exposed `isInRemotePlayback` is true iff the
most recently observed lifecycle state is background or
inTransitionToBackground; before any event it is the constructor's initial
false (LOCAL). In the SenzaShakaPlayer variant the getter queries the
lifecycle signal's reported state and equals the same predicate of it. -/
theorem claim_C1 (localTime remoteTime : ℚ) (localPaused : Bool)
    (events : List UiState) (state : UiState) :
    (UnifiedPlayer.runLifecycle (UnifiedPlayer.initState localTime remoteTime localPaused)
        events).isInRemotePlayback
      = events.getLast?.elim false inBackgroundState
    ∧ SenzaShakaPlayer.isInRemotePlayback state = inBackgroundState state := by
  constructor
  · induction events using List.reverseRecOn with
    | nil => rfl
    | append_singleton l e _ =>
      rw [runLifecycle_concat, onLifecycleStateChange_isInRemotePlayback, List.getLast?_concat]
      rfl
  · cases state <;> rfl

/-- C9: in both coordinator variants, the remote player's `ended` listener
requests a foreground lifecycle transition (`lifecycle.moveToForeground`)
strictly before dispatching the unified `ended` event, so remote playback
ending always triggers an automatic return toward local playback. -/
theorem claim_C9 :
    ∃ i j : Nat, i < j
      ∧ UnifiedPlayer.onRemoteEnded.get? i = some Act.moveToForeground
      ∧ UnifiedPlayer.onRemoteEnded.get? j = some (Act.dispatchEvent "ended")
      ∧ SenzaShakaPlayer.onRemoteEnded.get? i = some Act.moveToForeground
      ∧ SenzaShakaPlayer.onRemoteEnded.get? j = some (Act.dispatchEvent "ended") :=
  ⟨1, 2, Nat.one_lt_two, rfl, rfl, rfl, rfl⟩

/-- C10: the `paused` getter returns false whenever `isInRemotePlayback` is
true, regardless of the media element's actual paused flag, and returns the
media element's paused flag otherwise, in both coordinator variants. -/
theorem claim_C10 (s : PlayerState) (z : SenzaState) :
    (s.isInRemotePlayback = true → UnifiedPlayer.paused s = false)
    ∧ (s.isInRemotePlayback = false → UnifiedPlayer.paused s = s.localPaused)
    ∧ (SenzaShakaPlayer.isInRemotePlayback z.lifecycleState = true
        → SenzaShakaPlayer.paused z = false)
    ∧ (SenzaShakaPlayer.isInRemotePlayback z.lifecycleState = false
        → SenzaShakaPlayer.paused z = z.localPaused) := by
  refine ⟨fun h => ?_, fun h => ?_, fun h => ?_, fun h => ?_⟩ <;>
    simp [UnifiedPlayer.paused, SenzaShakaPlayer.paused, h]

/-- C10 witness: at a concrete state in remote playback whose media element
is actually paused, the getter still reports false; at a concrete local state
it reports the element's flag. -/
theorem claim_C10_witness :
    (remoteModeState.isInRemotePlayback = true ∧ remoteModeState.localPaused = true
      ∧ UnifiedPlayer.paused remoteModeState = false)
    ∧ (localModeState.isInRemotePlayback = false
      ∧ UnifiedPlayer.paused localModeState = localModeState.localPaused)
    ∧ (SenzaShakaPlayer.isInRemotePlayback remoteModeSenzaState.lifecycleState = true
      ∧ SenzaShakaPlayer.paused remoteModeSenzaState = false)
    ∧ (SenzaShakaPlayer.isInRemotePlayback localModeSenzaState.lifecycleState = false
      ∧ SenzaShakaPlayer.paused localModeSenzaState = localModeSenzaState.localPaused) :=
  ⟨⟨rfl, rfl, (claim_C10 remoteModeState remoteModeSenzaState).1 rfl⟩,
   ⟨rfl, (claim_C10 localModeState remoteModeSenzaState).2.1 rfl⟩,
   ⟨rfl, (claim_C10 remoteModeState remoteModeSenzaState).2.2.1 rfl⟩,
   ⟨rfl, (claim_C10 remoteModeState localModeSenzaState).2.2.2 rfl⟩⟩

/-- C2 counterexample: in the UnifiedPlayer variant (src/unifiedPlayer.js
lines 205-207), `moveToRemotePlayback()` issues the background lifecycle
transition without ever assigning the remote engine's currentTime: at a
concrete local-mode state with the engines' positions apart, the call's trace
is the bare `moveToBackground` with no remote-time write before it, and the
remote position still differs from the local one afterwards. -/
theorem claim_C2_counterexample :
    (UnifiedPlayer.moveToRemotePlayback localModeState).2.contains Act.moveToBackground = true
    ∧ (UnifiedPlayer.moveToRemotePlayback localModeState).2.countP isSetRemoteTimeAct = 0
    ∧ ¬ (UnifiedPlayer.moveToRemotePlayback localModeState).1.remoteTime
        = localModeState.localTime := by
  refine ⟨rfl, rfl, ?_⟩
  intro h
  simp [UnifiedPlayer.moveToRemotePlayback, localModeState] at h
  norm_num at h

/-- C2 (amended): in the SenzaShakaPlayer variant that syncs the timecode
(src/senzaShakaPlayer.js lines 437-440), every call to
`moveToRemotePlayback()` assigns the remote engine's currentTime the local
engine's currentTime strictly before the `lifecycle.moveToBackground` call is
issued; the UnifiedPlayer variant issues the background transition without
copying the position. -/
theorem claim_C2_amended (s : SenzaState) :
    ∃ i j : Nat, i < j
      ∧ (SenzaShakaPlayerV2.moveToRemotePlayback s).2.get? i
          = some (Act.setRemoteTime s.localTime)
      ∧ (SenzaShakaPlayerV2.moveToRemotePlayback s).2.get? j = some Act.moveToBackground
      ∧ (SenzaShakaPlayerV2.moveToRemotePlayback s).1.remoteTime = s.localTime :=
  ⟨0, 1, Nat.zero_lt_one, rfl, rfl, rfl⟩

/-- C6: in both coordinator variants, reading `currentTime` returns the
remote engine's time while remote playback is active and the local engine's
time otherwise; writing it while remote playback is active changes neither
engine's position and emits exactly one warning, while writing it during
local playback assigns both engines' positions. -/
theorem claim_C6 (s : PlayerState) (z : SenzaState) (time : ℚ) :
    (s.isInRemotePlayback = true →
      UnifiedPlayer.currentTimeGet s = s.remoteTime
      ∧ (UnifiedPlayer.currentTimeSet s time).1 = s
      ∧ (UnifiedPlayer.currentTimeSet s time).2.countP isTimeWriteAct = 0
      ∧ (UnifiedPlayer.currentTimeSet s time).2.countP isConsoleWarnAct = 1)
    ∧ (s.isInRemotePlayback = false →
      UnifiedPlayer.currentTimeGet s = s.localTime
      ∧ (UnifiedPlayer.currentTimeSet s time).1.localTime = time
      ∧ (UnifiedPlayer.currentTimeSet s time).1.remoteTime = time
      ∧ (UnifiedPlayer.currentTimeSet s time).2.countP isConsoleWarnAct = 0)
    ∧ (SenzaShakaPlayer.isInRemotePlayback z.lifecycleState = true →
      SenzaShakaPlayer.currentTimeGet z = z.remoteTime
      ∧ (SenzaShakaPlayer.currentTimeSet z time).1 = z
      ∧ (SenzaShakaPlayer.currentTimeSet z time).2.countP isTimeWriteAct = 0
      ∧ (SenzaShakaPlayer.currentTimeSet z time).2.countP isConsoleWarnAct = 1)
    ∧ (SenzaShakaPlayer.isInRemotePlayback z.lifecycleState = false →
      SenzaShakaPlayer.currentTimeGet z = z.localTime
      ∧ (SenzaShakaPlayer.currentTimeSet z time).1.localTime = time
      ∧ (SenzaShakaPlayer.currentTimeSet z time).1.remoteTime = time) := by
  refine ⟨fun h => ?_, fun h => ?_, fun h => ?_, fun h => ?_⟩ <;>
    simp [UnifiedPlayer.currentTimeGet, UnifiedPlayer.currentTimeSet,
      SenzaShakaPlayer.currentTimeGet, SenzaShakaPlayer.currentTimeSet, h,
      isTimeWriteAct, isConsoleWarnAct]

/-- C6 witness: the theorem applied at a concrete remote-playback state and a
concrete local-playback state. -/
theorem claim_C6_witness :
    (remoteModeState.isInRemotePlayback = true
      ∧ (UnifiedPlayer.currentTimeGet remoteModeState = remoteModeState.remoteTime
        ∧ (UnifiedPlayer.currentTimeSet remoteModeState 9).1 = remoteModeState
        ∧ (UnifiedPlayer.currentTimeSet remoteModeState 9).2.countP isTimeWriteAct = 0
        ∧ (UnifiedPlayer.currentTimeSet remoteModeState 9).2.countP isConsoleWarnAct = 1))
    ∧ (localModeState.isInRemotePlayback = false
      ∧ (UnifiedPlayer.currentTimeGet localModeState = localModeState.localTime
        ∧ (UnifiedPlayer.currentTimeSet localModeState 9).1.localTime = 9
        ∧ (UnifiedPlayer.currentTimeSet localModeState 9).1.remoteTime = 9
        ∧ (UnifiedPlayer.currentTimeSet localModeState 9).2.countP isConsoleWarnAct = 0))
    ∧ (SenzaShakaPlayer.isInRemotePlayback remoteModeSenzaState.lifecycleState = true
      ∧ (SenzaShakaPlayer.currentTimeGet remoteModeSenzaState = remoteModeSenzaState.remoteTime
        ∧ (SenzaShakaPlayer.currentTimeSet remoteModeSenzaState 9).1 = remoteModeSenzaState
        ∧ (SenzaShakaPlayer.currentTimeSet remoteModeSenzaState 9).2.countP isTimeWriteAct = 0
        ∧ (SenzaShakaPlayer.currentTimeSet remoteModeSenzaState 9).2.countP isConsoleWarnAct = 1))
    ∧ (SenzaShakaPlayer.isInRemotePlayback localModeSenzaState.lifecycleState = false
      ∧ (SenzaShakaPlayer.currentTimeGet localModeSenzaState = localModeSenzaState.localTime
        ∧ (SenzaShakaPlayer.currentTimeSet localModeSenzaState 9).1.localTime = 9
        ∧ (SenzaShakaPlayer.currentTimeSet localModeSenzaState 9).1.remoteTime = 9)) :=
  ⟨⟨rfl, (claim_C6 remoteModeState remoteModeSenzaState 9).1 rfl⟩,
   ⟨rfl, (claim_C6 localModeState remoteModeSenzaState 9).2.1 rfl⟩,
   ⟨rfl, (claim_C6 remoteModeState remoteModeSenzaState 9).2.2.1 rfl⟩,
   ⟨rfl, (claim_C6 remoteModeState localModeSenzaState 9).2.2.2 rfl⟩⟩

/-- C7: in both coordinator variants, calling `pause()` while
`isInRemotePlayback` is true issues no pause call to either engine, leaves
the state unchanged and emits exactly one warning; while it is false,
`pause()` pauses both engines and warns not at all. -/
theorem claim_C7 (s : PlayerState) (z : SenzaState) :
    (s.isInRemotePlayback = true →
      (UnifiedPlayer.pause s).2.countP isPauseAct = 0
      ∧ (UnifiedPlayer.pause s).2.countP isConsoleWarnAct = 1
      ∧ (UnifiedPlayer.pause s).1 = s)
    ∧ (s.isInRemotePlayback = false →
      Act.localPause ∈ (UnifiedPlayer.pause s).2
      ∧ Act.remotePause ∈ (UnifiedPlayer.pause s).2
      ∧ (UnifiedPlayer.pause s).2.countP isConsoleWarnAct = 0)
    ∧ (SenzaShakaPlayer.isInRemotePlayback z.lifecycleState = true →
      (SenzaShakaPlayer.pause z).2.countP isPauseAct = 0
      ∧ (SenzaShakaPlayer.pause z).2.countP isConsoleWarnAct = 1
      ∧ (SenzaShakaPlayer.pause z).1 = z)
    ∧ (SenzaShakaPlayer.isInRemotePlayback z.lifecycleState = false →
      Act.localPause ∈ (SenzaShakaPlayer.pause z).2
      ∧ Act.remotePause ∈ (SenzaShakaPlayer.pause z).2
      ∧ (SenzaShakaPlayer.pause z).2.countP isConsoleWarnAct = 0) := by
  refine ⟨fun h => ?_, fun h => ?_, fun h => ?_, fun h => ?_⟩ <;>
    simp [UnifiedPlayer.pause, SenzaShakaPlayer.pause, h, isPauseAct, isConsoleWarnAct]

/-- C7 witness: the theorem applied at a concrete remote-playback state and a
concrete local-playback state of each variant. -/
theorem claim_C7_witness :
    (remoteModeState.isInRemotePlayback = true
      ∧ ((UnifiedPlayer.pause remoteModeState).2.countP isPauseAct = 0
        ∧ (UnifiedPlayer.pause remoteModeState).2.countP isConsoleWarnAct = 1
        ∧ (UnifiedPlayer.pause remoteModeState).1 = remoteModeState))
    ∧ (localModeState.isInRemotePlayback = false
      ∧ (Act.localPause ∈ (UnifiedPlayer.pause localModeState).2
        ∧ Act.remotePause ∈ (UnifiedPlayer.pause localModeState).2
        ∧ (UnifiedPlayer.pause localModeState).2.countP isConsoleWarnAct = 0))
    ∧ (SenzaShakaPlayer.isInRemotePlayback remoteModeSenzaState.lifecycleState = true
      ∧ ((SenzaShakaPlayer.pause remoteModeSenzaState).2.countP isPauseAct = 0
        ∧ (SenzaShakaPlayer.pause remoteModeSenzaState).2.countP isConsoleWarnAct = 1
        ∧ (SenzaShakaPlayer.pause remoteModeSenzaState).1 = remoteModeSenzaState))
    ∧ (SenzaShakaPlayer.isInRemotePlayback localModeSenzaState.lifecycleState = false
      ∧ (Act.localPause ∈ (SenzaShakaPlayer.pause localModeSenzaState).2
        ∧ Act.remotePause ∈ (SenzaShakaPlayer.pause localModeSenzaState).2
        ∧ (SenzaShakaPlayer.pause localModeSenzaState).2.countP isConsoleWarnAct = 0)) :=
  ⟨⟨rfl, (claim_C7 remoteModeState remoteModeSenzaState).1 rfl⟩,
   ⟨rfl, (claim_C7 localModeState remoteModeSenzaState).2.1 rfl⟩,
   ⟨rfl, (claim_C7 remoteModeState remoteModeSenzaState).2.2.1 rfl⟩,
   ⟨rfl, (claim_C7 remoteModeState localModeSenzaState).2.2.2 rfl⟩⟩

/-- C8: while local playback is active, the video element's `timeupdate`
listener mirrors the local position into the remote engine and dispatches a
unified `timeupdate` event that carries only its type (the `Act.dispatchEvent`
constructor records nothing else, mirroring `new Event("timeupdate")`); while
remote playback is active, the same listener neither writes the remote engine
nor dispatches anything, so the non-authoritative engine's position is only
ever written from the authoritative engine. -/
theorem claim_C8 (s : PlayerState) :
    (s.isInRemotePlayback = false →
      (UnifiedPlayer.onLocalTimeupdate s).1.remoteTime = s.localTime
      ∧ (UnifiedPlayer.onLocalTimeupdate s).1.localTime = s.localTime
      ∧ (UnifiedPlayer.onLocalTimeupdate s).2
          = [Act.consoleLog "localPlayer timeupdate",
             Act.setRemoteTime s.localTime,
             Act.dispatchEvent "timeupdate"])
    ∧ (s.isInRemotePlayback = true →
      (UnifiedPlayer.onLocalTimeupdate s).1 = s
      ∧ (UnifiedPlayer.onLocalTimeupdate s).2 = []) := by
  refine ⟨fun h => ?_, fun h => ?_⟩ <;> simp [UnifiedPlayer.onLocalTimeupdate, h]

/-- C8 witness: the theorem applied at a concrete local-playback state with
the local engine at 12.5 seconds, and at a concrete remote-playback state. -/
theorem claim_C8_witness :
    localModeState.localTime = 25 / 2
    ∧ (localModeState.isInRemotePlayback = false
      ∧ ((UnifiedPlayer.onLocalTimeupdate localModeState).1.remoteTime = localModeState.localTime
        ∧ (UnifiedPlayer.onLocalTimeupdate localModeState).1.localTime = localModeState.localTime
        ∧ (UnifiedPlayer.onLocalTimeupdate localModeState).2
            = [Act.consoleLog "localPlayer timeupdate",
               Act.setRemoteTime localModeState.localTime,
               Act.dispatchEvent "timeupdate"]))
    ∧ (remoteModeState.isInRemotePlayback = true
      ∧ ((UnifiedPlayer.onLocalTimeupdate remoteModeState).1 = remoteModeState
        ∧ (UnifiedPlayer.onLocalTimeupdate remoteModeState).2 = [])) :=
  ⟨rfl,
   ⟨rfl, (claim_C8 localModeState).1 rfl⟩,
   ⟨rfl, (claim_C8 remoteModeState).2 rfl⟩⟩

/-- C4 counterexample: in the UnifiedPlayer variant (src/unifiedPlayer.js
lines 159-166) both awaited loads share one try/catch, so when the local load
fails the remote load is never attempted and a single combined message is
logged: the failure of one engine's load does prevent the other engine's load
attempt, and the failures are not independently logged. -/
theorem claim_C4_counterexample :
    (UnifiedPlayer.load
        { localLoadResult := Except.error "local load failed",
          remoteLoadResult := Except.ok () } "https://example/a.mpd").1
      = [Act.localLoad "https://example/a.mpd", Act.consoleLog "Couldn\'t load."]
    ∧ ¬ Act.remoteLoad "https://example/a.mpd"
        ∈ (UnifiedPlayer.load
            { localLoadResult := Except.error "local load failed",
              remoteLoadResult := Except.ok () } "https://example/a.mpd").1 := by
  decide

/-- C4 (amended): in the SenzaShakaPlayer and ShakaPlayer variants each
engine's load sits in its own try/catch, so both loads are attempted whatever
the outcomes and each failure is caught and logged independently - except
that ShakaPlayer's guard skips the remote attempt exactly when the player is
already in remote playback with that same asset loaded; in the UnifiedPlayer
variant both awaits share one try/catch, so a local-load failure prevents the
remote attempt. -/
theorem claim_C4_amended (env : LoadEnv) (url e : String)
    (isInRemotePlayback : Bool) (assetUri : String) :
    Act.localLoad url ∈ (SenzaShakaPlayer.load env url).1
    ∧ Act.remoteLoad url ∈ (SenzaShakaPlayer.load env url).1
    ∧ (SenzaShakaPlayer.load
          { localLoadResult := Except.ok (), remoteLoadResult := Except.error e } url).1
        = [Act.remoteLoad url, Act.consoleLog ("Couldn\'t load remote player. Error: " ++ e),
           Act.localLoad url]
    ∧ (SenzaShakaPlayer.load
          { localLoadResult := Except.error e, remoteLoadResult := Except.ok () } url).1
        = [Act.remoteLoad url, Act.localLoad url,
           Act.consoleLog ("Couldn\'t load local player. Error: " ++ e)]
    ∧ Act.localLoad url ∈ (ShakaPlayer.load isInRemotePlayback assetUri env url).1
    ∧ (Act.remoteLoad url ∈ (ShakaPlayer.load isInRemotePlayback assetUri env url).1
        ↔ (!isInRemotePlayback || assetUri != url) = true)
    ∧ (UnifiedPlayer.load
          { localLoadResult := Except.error e, remoteLoadResult := Except.ok () } url).1
        = [Act.localLoad url, Act.consoleLog "Couldn\'t load."] := by
  obtain ⟨lr, rr⟩ := env
  refine ⟨?_, ?_, ?_, ?_, ?_, ?_, ?_⟩
  · cases lr <;> cases rr <;>
      simp [SenzaShakaPlayer.load, Eff.andThen, Eff.tryCatch,
        localPlayerLoad, remotePlayerLoad, consoleLogE]
  · cases lr <;> cases rr <;>
      simp [SenzaShakaPlayer.load, Eff.andThen, Eff.tryCatch,
        localPlayerLoad, remotePlayerLoad, consoleLogE]
  · simp [SenzaShakaPlayer.load, Eff.andThen, Eff.tryCatch,
      localPlayerLoad, remotePlayerLoad, consoleLogE]
  · simp [SenzaShakaPlayer.load, Eff.andThen, Eff.tryCatch,
      localPlayerLoad, remotePlayerLoad, consoleLogE]
  · cases hg : (!isInRemotePlayback || assetUri != url) <;> cases lr <;> cases rr <;>
      simp [ShakaPlayer.load, Eff.andThen, Eff.tryCatch,
        localPlayerLoad, remotePlayerLoad, consoleLogE, hg]
  · cases hg : (!isInRemotePlayback || assetUri != url) <;> cases lr <;> cases rr <;>
      simp [ShakaPlayer.load, Eff.andThen, Eff.tryCatch,
        localPlayerLoad, remotePlayerLoad, consoleLogE, hg]
  · simp [UnifiedPlayer.load, Eff.andThen, Eff.tryCatch,
      localPlayerLoad, remotePlayerLoad, consoleLogE]

/-- C5: for every url and every environment outcome, the promise returned by
`load(url)` never rejects in either the UnifiedPlayer or the SenzaShakaPlayer
variant; in particular, when the remote load throws and the local load
succeeds, `load` resolves and the only extra effect is the logged error
message, with the local load still attempted. -/
theorem claim_C5 (env : LoadEnv) (url e : String) :
    (UnifiedPlayer.load env url).2 = Except.ok ()
    ∧ (SenzaShakaPlayer.load env url).2 = Except.ok ()
    ∧ UnifiedPlayer.load
        { localLoadResult := Except.ok (), remoteLoadResult := Except.error e } url
      = ([Act.localLoad url, Act.remoteLoad url, Act.consoleLog "Couldn\'t load."],
         Except.ok ())
    ∧ SenzaShakaPlayer.load
        { localLoadResult := Except.ok (), remoteLoadResult := Except.error e } url
      = ([Act.remoteLoad url, Act.consoleLog ("Couldn\'t load remote player. Error: " ++ e),
          Act.localLoad url],
         Except.ok ()) := by
  obtain ⟨lr, rr⟩ := env
  refine ⟨?_, ?_, ?_, ?_⟩ <;>
    cases lr <;> cases rr <;>
      simp [UnifiedPlayer.load, SenzaShakaPlayer.load, Eff.andThen, Eff.tryCatch,
        localPlayerLoad, remotePlayerLoad, consoleLogE]

/-- C3: for every license-request event carrying payload P with DRM
configured for server S and no caller-supplied filters, the
SenzaShakaPlayer listener issues exactly one HTTP POST to S with the
`Content-Type: application/octet-stream` header and body the raw bytes of
base64-decode(P.licenseRequest) (the event's bytes read as a string, decoded
by the browser's `atob`, re-read as bytes), and makes exactly one
`writeLicenseResponse` call carrying the resulting status and body; by
`licenseResponseBodyOf`, a non-200 status is still written back as
(status, stringified-body-or-undefined) rather than dropped. The
src/shakaPlayer.js listener likewise issues exactly one license request
(through the local networking engine, which owns the HTTP exchange there)
and exactly one `writeLicenseResponse` with the resulting status and body. -/
theorem claim_C3 (server : String) (atob : String → String)
    (fetch : DrmRequest → FetchResponse) (engineRequest : DrmRequest → FetchResponse)
    (payload : List Nat) :
    (SenzaShakaPlayer.onLicenseRequest server none none atob fetch payload).filter isHttpPostAct
      = [Act.httpPost server "POST" [("Content-Type", "application/octet-stream")]
          (charCodesOf (atob (stringFromCharCodes payload)))]
    ∧ (SenzaShakaPlayer.onLicenseRequest server none none atob fetch payload).filter
        isWriteLicenseResponseAct
      = [Act.writeLicenseResponse (fetch (expectedLicensePost server atob payload)).status
          (licenseResponseBodyOf (fetch (expectedLicensePost server atob payload)))]
    ∧ (ShakaPlayer.onLicenseRequest server atob engineRequest payload).filter
        isEngineLicenseRequestAct
      = [Act.engineLicenseRequest (shakaLicenseEngineRequestOf server atob payload)]
    ∧ (ShakaPlayer.onLicenseRequest server atob engineRequest payload).filter
        isWriteLicenseResponseAct
      = [Act.writeLicenseResponse
          (engineRequest (shakaLicenseEngineRequestOf server atob payload)).status
          (shakaLicenseResponseBodyOf
            (engineRequest (shakaLicenseEngineRequestOf server atob payload)))] := by
  refine ⟨?_, ?_, ?_, ?_⟩ <;>
  · simp only [SenzaShakaPlayer.onLicenseRequest, ShakaPlayer.onLicenseRequest,
      getLicenseFromServer, expectedLicensePost, shakaLicenseEngineRequestOf,
      licenseResponseBodyOf, shakaLicenseResponseBodyOf]
    split <;>
      simp_all [isHttpPostAct, isWriteLicenseResponseAct, isEngineLicenseRequestAct]
